import Mathlib

/-!
Shallow embedding of the gnark core covered by the specification:

* the generated `cs` hint functions `powModulusMinusOne` and `ithBit`
  (internal/backend/bw6-761/cs, file `part_000`), modelled twice:
  once at the value level (the scalar field) and once at the
  representation level (Montgomery limbs), because `ithBit` operates on
  raw representations and converts its inputs in place;
* the `groth16` curve dispatch layer (`part_001`): `Verify`, `Prove`,
  `ReadAndVerify`, `ReadAndProve`, `NewProvingKey`, `NewVerifyingKey`,
  `NewProof`, `NewCS`;
* the `mockcommitment` scheme (`part_001`);
* the quadratic-extension gadget `E2` (std/algebra/fields/e2.go).

External curve arithmetic (gnark-crypto) is modelled by its documented
contract: `fr.Element` is the scalar field of BW6-761, a prime field of
modulus `q` stored in Montgomery form with `R = 2^384 mod q`;
`FromMont` multiplies the raw representation by `R⁻¹ mod q`;
`fr.One()` is the Montgomery representation of 1; `Exp`, `Sub` act on
field values; `Element.Bit i` is bit `i` of the raw limbs.
-/

namespace cs

/-- Value-level model of the generated hint `powModulusMinusOne`.
The generated code computes `v := a^(q-1)` with `qMinusOne = fr.Modulus() - 1`
and then `v.Sub(&one, &v)`, i.e. it returns `1 - a^(q-1)`.  The code is
generated from a template once per scalar field (internal/generators), so the
field and its modulus `q` are parameters of the model; for the generated
instance at hand `F` is the BW6-761 scalar field and `q` its modulus. -/
def powModulusMinusOne {F : Type} [CommRing F] (q : ℕ) (inputs : List F) :
    Except String F :=
  if inputs.length ≠ 1 then .error "powModulusMinusOne expects one input"
  else .ok (1 - (inputs.getD 0 0) ^ (q - 1))

end cs

namespace mont

/-- Modulus of the BW6-761 scalar field (`fr.Modulus()`), equal to the
BLS12-377 base-field modulus. -/
def q : ℕ :=
  0x01ae3a4617c510eac63b05c06ca1493b1a22d9f300f5138f1ef3622fba094800170b5d44300000008508c00000000001

/-- The Montgomery constant for six 64-bit limbs: `R = 2^384 mod q`. -/
def R : ℕ := 2 ^ 384 % q

/-- The inverse of `R` modulo `q`; certified by `rInv_mul_R` below. -/
def rInv : ℕ :=
  193639650212296069206809223070911922792886794295675586437897404907786751263178459621544185310416431420969770445288

/-- Contract of `Element.FromMont`: the raw limb value is multiplied by
`R⁻¹` modulo `q`, turning the Montgomery representation of a field element
into its canonical integer value. -/
def fromMont (x : ℕ) : ℕ := x * rInv % q

/-- Contract of `fr.One()`: the Montgomery representation of 1 is `R mod q`. -/
def oneMont : ℕ := R

/-- Contract of `Element.Sub` on raw representations: subtraction modulo `q`
(the Montgomery map is additive, so this is the representation of the value
difference). -/
def montSub (a b : ℕ) : ℕ := (a % q + (q - b % q)) % q

/-- Contract of `Element.Exp`: the result represents `val(a)^e`, i.e. it is
the Montgomery representation of the `e`-th power of the value of `a`. -/
def montExp (a e : ℕ) : ℕ := (fromMont a) ^ e % q * R % q

/-- Representation-level model of the generated hint `powModulusMinusOne`:
the local `v` receives `Exp(inputs[0], q-1)` and then `Sub(one, v)`; the
input slice is only read, never written.  The returned pair is
(final contents of the input slice, returned value or error). -/
def powModulusMinusOne (inputs : List ℕ) : List ℕ × Except String ℕ :=
  if inputs.length ≠ 1 then
    (inputs, .error "powModulusMinusOne expects one input")
  else
    (inputs, .ok (montSub oneMont (montExp (inputs.getD 0 0) (q - 1))))

/-- Representation-level model of the generated hint `ithBit`.  The Go code
first calls `inputs[0].FromMont()` and `inputs[1].FromMont()`, which convert
both slice elements in place; it then errors unless the canonical bit
position fits in one 64-bit word (`IsUint64`), and otherwise returns
`fr.One()` or the zero element according to bit `inputs[1][0]` of the raw
(now canonical) limbs of `inputs[0]`. -/
def ithBit (inputs : List ℕ) : List ℕ × Except String ℕ :=
  if inputs.length ≠ 2 then
    (inputs,
      .error "ithBit expects 2 inputs; inputs[0] == value, inputs[1] == bit position")
  else
    let a := fromMont (inputs.getD 0 0)
    let n := fromMont (inputs.getD 1 0)
    if 2 ^ 64 ≤ n then
      ([a, n], .error "ithBit expects bit position (input[1]) to fit on one word")
    else
      ([a, n], .ok (if a.testBit n then oneMont else 0))

end mont

namespace groth16

/-- Result of a Go call: a returned value, a returned recoverable `error`,
or a `panic` (fatal). -/
inductive GoResult (α : Type) where
  | ok : α → GoResult α
  | err : String → GoResult α
  | panics : String → GoResult α
deriving DecidableEq

/-- Curve identifiers (`ecc.ID` of gnark-crypto).  The dispatch layer only
compares identifiers for equality, so they are modelled as distinct
naturals; `0` stands for the zero value `UNKNOWN`, and naturals above 4
are the remaining "other" identifier values. -/
def UNKNOWN : ℕ := 0

def BN254 : ℕ := 1

def BLS12_377 : ℕ := 2

def BLS12_381 : ℕ := 3

def BW6_761 : ℕ := 4

/-- The four curve identifiers the dispatch layer recognises. -/
def knownCurves : List ℕ := [BN254, BLS12_377, BLS12_381, BW6_761]

/-- A `Proof` interface value: the concrete type (`groth16_bls377.Proof`,
…) is identified by its curve tag; the group elements are opaque here. -/
structure Proof where
  curve : ℕ
deriving DecidableEq

/-- A `ProvingKey` interface value, identified by the curve of its
concrete type. -/
structure ProvingKey where
  curve : ℕ
deriving DecidableEq

/-- A `VerifyingKey` interface value: the curve of its concrete type and
its `SizePublicWitness()` (number of elements expected in the public
witness). -/
structure VerifyingKey where
  curve : ℕ
  sizePublicWitness : ℕ
deriving DecidableEq

/-- A compiled `R1CS` interface value.  Modelled from the spec: the wire
counts per visibility class under the numbering
`[one | public | secret | internal]` as returned by `GetNbVariables`
(generated code, not under src/); the stored public count includes the
distinguished one-wire at index 0, which the solver seeds with the
constant 1 and which is never part of a serialized witness.  `solvedBy`
abstracts the solver of spec §4.4: whether witness computation succeeds
on a given full assignment. -/
structure R1CS where
  curve : ℕ
  nbInternal : ℕ
  nbSecret : ℕ
  nbPublic : ℕ
  solvedBy : List ℕ → Bool

/-- `GetNbVariables` returns `(internal, secret, public)` wire counts. -/
def GetNbVariables (r : R1CS) : ℕ × ℕ × ℕ := (r.nbInternal, r.nbSecret, r.nbPublic)

/-- Number of user-visible public wires of an `R1CS`: the stored public
count minus the one-wire. -/
def nbPublicWires (r : R1CS) : ℕ := r.nbPublic - 1

/-- Number of secret wires of an `R1CS`. -/
def nbSecretWires (r : R1CS) : ℕ := r.nbSecret

/-- A caller-supplied assignment (`frontend.Circuit` used as a witness):
values for the public and the secret input wires. -/
structure Assignment where
  publicValues : List ℕ
  secretValues : List ℕ

/-- Modelled from the spec: `Witness.FromPublicAssignment` (generated
witness package, not under src/) serialises the public part of the
assignment, in wire order; extraction failures are not modelled. -/
def FromPublicAssignment (a : Assignment) : List ℕ := a.publicValues

/-- Modelled from the spec: `Witness.FromFullAssignment` serialises the
full assignment in `[public | secret]` order. -/
def FromFullAssignment (a : Assignment) : List ℕ := a.publicValues ++ a.secretValues

/-- A witness stream in the wire format of spec §6:
`uint32 nbElements | element_0 | element_1 | …`. -/
structure Stream where
  header : ℕ
  elems : List ℕ

/-- Modelled from the spec: `Witness.LimitReadFrom` (generated witness
package, not under src/) reads the `uint32 nbElements` header and then
exactly `expected` field elements, failing when the declared count
differs from `expected` or the stream is short. -/
def LimitReadFrom (s : Stream) (expected : ℕ) : GoResult (List ℕ) :=
  if s.header ≠ expected then .err "invalid witness size"
  else if s.elems.length < expected then .err "unexpected EOF"
  else .ok (s.elems.take expected)

/-- Modelled from the spec: the per-curve Groth16 prover
(internal/backend/*/groth16, not under src/) first runs the solver on the
full witness; "if force flag is set, Prove ignores R1CS solving error (ie
invalid witness) and executes the FFTs and MultiExponentiations to
compute an (invalid) Proof object".  The cryptographic content of the
proof is opaque here; only the curve tag of the produced object is
tracked. -/
def backendProve (r1cs : R1CS) (w : List ℕ) (force : Bool) : GoResult Proof :=
  if r1cs.solvedBy w = false ∧ force = false then .err "constraint is not satisfied"
  else .ok ⟨r1cs.curve⟩

/-- Dispatch `Verify`: a type switch on the proof's concrete curve type
(in source order bls377, bls381, bn256, bw761), building the public
witness and calling the per-curve verifier on `vk` downcast by an
unchecked type assertion — which panics when `vk` is of a different
curve's type.  The per-curve verifier is external generated code, taken
as a parameter. -/
def Verify (bVerify : ℕ → Proof → VerifyingKey → List ℕ → GoResult Unit)
    (proof : Proof) (vk : VerifyingKey) (publicWitness : Assignment) : GoResult Unit :=
  if proof.curve = BLS12_377 then
    if vk.curve = BLS12_377 then bVerify BLS12_377 proof vk (FromPublicAssignment publicWitness)
    else .panics "interface conversion"
  else if proof.curve = BLS12_381 then
    if vk.curve = BLS12_381 then bVerify BLS12_381 proof vk (FromPublicAssignment publicWitness)
    else .panics "interface conversion"
  else if proof.curve = BN254 then
    if vk.curve = BN254 then bVerify BN254 proof vk (FromPublicAssignment publicWitness)
    else .panics "interface conversion"
  else if proof.curve = BW6_761 then
    if vk.curve = BW6_761 then bVerify BW6_761 proof vk (FromPublicAssignment publicWitness)
    else .panics "interface conversion"
  else .panics "unrecognized R1CS curve type"

/-- Dispatch `ReadAndVerify`: a type switch on the verifying key's curve
type; reads `vk.SizePublicWitness()` elements from the stream, then
downcasts the proof by an unchecked type assertion. -/
def ReadAndVerify (bVerify : ℕ → Proof → VerifyingKey → List ℕ → GoResult Unit)
    (proof : Proof) (vk : VerifyingKey) (publicWitness : Stream) : GoResult Unit :=
  if vk.curve = BLS12_377 then
    match LimitReadFrom publicWitness vk.sizePublicWitness with
    | .ok w =>
        if proof.curve = BLS12_377 then bVerify BLS12_377 proof vk w
        else .panics "interface conversion"
    | .err e => .err e
    | .panics m => .panics m
  else if vk.curve = BLS12_381 then
    match LimitReadFrom publicWitness vk.sizePublicWitness with
    | .ok w =>
        if proof.curve = BLS12_381 then bVerify BLS12_381 proof vk w
        else .panics "interface conversion"
    | .err e => .err e
    | .panics m => .panics m
  else if vk.curve = BN254 then
    match LimitReadFrom publicWitness vk.sizePublicWitness with
    | .ok w =>
        if proof.curve = BN254 then bVerify BN254 proof vk w
        else .panics "interface conversion"
    | .err e => .err e
    | .panics m => .panics m
  else if vk.curve = BW6_761 then
    match LimitReadFrom publicWitness vk.sizePublicWitness with
    | .ok w =>
        if proof.curve = BW6_761 then bVerify BW6_761 proof vk w
        else .panics "interface conversion"
    | .err e => .err e
    | .panics m => .panics m
  else .panics "unrecognized R1CS curve type"

/-- Dispatch `Prove`: `_force` defaults to `false` and takes the first
element of the variadic `force` argument otherwise; a type switch on the
R1CS curve type builds the full witness and calls the per-curve prover on
`pk` downcast by an unchecked type assertion. -/
def Prove (r1cs : R1CS) (pk : ProvingKey) (witness : Assignment)
    (force : List Bool) : GoResult Proof :=
  let f := force.headD false
  if r1cs.curve = BLS12_377 then
    if pk.curve = BLS12_377 then backendProve r1cs (FromFullAssignment witness) f
    else .panics "interface conversion"
  else if r1cs.curve = BLS12_381 then
    if pk.curve = BLS12_381 then backendProve r1cs (FromFullAssignment witness) f
    else .panics "interface conversion"
  else if r1cs.curve = BN254 then
    if pk.curve = BN254 then backendProve r1cs (FromFullAssignment witness) f
    else .panics "interface conversion"
  else if r1cs.curve = BW6_761 then
    if pk.curve = BW6_761 then backendProve r1cs (FromFullAssignment witness) f
    else .panics "interface conversion"
  else .panics "unrecognized R1CS curve type"

/-- Dispatch `ReadAndProve`: like `Prove` but the full witness is read
from a stream; the expected element count is
`nbSecret + nbPublic - 1` with `(_, nbSecret, nbPublic) = GetNbVariables`. -/
def ReadAndProve (r1cs : R1CS) (pk : ProvingKey) (witness : Stream)
    (force : List Bool) : GoResult Proof :=
  let f := force.headD false
  let nbSecret := (GetNbVariables r1cs).2.1
  let nbPublic := (GetNbVariables r1cs).2.2
  let expectedSize := nbSecret + nbPublic - 1
  if r1cs.curve = BLS12_377 then
    if pk.curve = BLS12_377 then
      match LimitReadFrom witness expectedSize with
      | .ok w => backendProve r1cs w f
      | .err e => .err e
      | .panics m => .panics m
    else .panics "interface conversion"
  else if r1cs.curve = BLS12_381 then
    if pk.curve = BLS12_381 then
      match LimitReadFrom witness expectedSize with
      | .ok w => backendProve r1cs w f
      | .err e => .err e
      | .panics m => .panics m
    else .panics "interface conversion"
  else if r1cs.curve = BN254 then
    if pk.curve = BN254 then
      match LimitReadFrom witness expectedSize with
      | .ok w => backendProve r1cs w f
      | .err e => .err e
      | .panics m => .panics m
    else .panics "interface conversion"
  else if r1cs.curve = BW6_761 then
    if pk.curve = BW6_761 then
      match LimitReadFrom witness expectedSize with
      | .ok w => backendProve r1cs w f
      | .err e => .err e
      | .panics m => .panics m
    else .panics "interface conversion"
  else .panics "unrecognized R1CS curve type"

/-- `NewProvingKey`: instantiates the matching concrete proving key
(zero value) for the four known identifiers, panics otherwise. -/
def NewProvingKey (curveID : ℕ) : GoResult ProvingKey :=
  if curveID = BN254 then .ok ⟨BN254⟩
  else if curveID = BLS12_377 then .ok ⟨BLS12_377⟩
  else if curveID = BLS12_381 then .ok ⟨BLS12_381⟩
  else if curveID = BW6_761 then .ok ⟨BW6_761⟩
  else .panics "not implemented"

/-- `NewVerifyingKey`: instantiates the matching concrete verifying key
(zero value) for the four known identifiers, panics otherwise. -/
def NewVerifyingKey (curveID : ℕ) : GoResult VerifyingKey :=
  if curveID = BN254 then .ok ⟨BN254, 0⟩
  else if curveID = BLS12_377 then .ok ⟨BLS12_377, 0⟩
  else if curveID = BLS12_381 then .ok ⟨BLS12_381, 0⟩
  else if curveID = BW6_761 then .ok ⟨BW6_761, 0⟩
  else .panics "not implemented"

/-- `NewProof`: instantiates the matching concrete proof (zero value) for
the four known identifiers, panics otherwise. -/
def NewProof (curveID : ℕ) : GoResult Proof :=
  if curveID = BN254 then .ok ⟨BN254⟩
  else if curveID = BLS12_377 then .ok ⟨BLS12_377⟩
  else if curveID = BLS12_381 then .ok ⟨BLS12_381⟩
  else if curveID = BW6_761 then .ok ⟨BW6_761⟩
  else .panics "not implemented"

/-- `NewCS`: instantiates the matching concrete `R1CS` (zero value: no
constraints, so the solver trivially succeeds) for the four known
identifiers, panics otherwise. -/
def NewCS (curveID : ℕ) : GoResult R1CS :=
  if curveID = BN254 then .ok ⟨BN254, 0, 0, 0, fun _ => true⟩
  else if curveID = BLS12_377 then .ok ⟨BLS12_377, 0, 0, 0, fun _ => true⟩
  else if curveID = BLS12_381 then .ok ⟨BLS12_381, 0, 0, 0, fun _ => true⟩
  else if curveID = BW6_761 then .ok ⟨BW6_761, 0, 0, 0, fun _ => true⟩
  else .panics "not implemented"

end groth16

namespace mockcommitment

/-- The mock polynomial-commitment scheme (`Scheme struct{}`). -/
structure Scheme where

/-- `Scheme.Verify` ignores all its arguments and returns true.  The Go
parameters are interface values, mirrored by type parameters. -/
def Scheme.Verify (_s : Scheme) {D P V : Type} (_d : D) (_p : P) (_v : V) : Bool :=
  true

/-- `Scheme.BatchVerifySinglePoint` ignores all its arguments and returns
true. -/
def Scheme.BatchVerifySinglePoint (_s : Scheme) {A B C D : Type} (_point : A)
    (_claimedValues : B) (_commitments : C) (_batchOpeningProof : D) : Bool :=
  true

end mockcommitment

namespace fields

/-- Extension parameters (`fields.Extension`): only the square of the
quadratic non-residue `uSquare` is relevant to `E2`. -/
structure Extension (F : Type) where
  uSquare : F
deriving DecidableEq

/-- An element of the quadratic extension, a pair of circuit variables.
The front-end API operations `Add`, `Sub`, `Mul` are modelled by their
value semantics on the scalar field. -/
structure E2 (F : Type) where
  A0 : F
  A1 : F
deriving DecidableEq

variable {F : Type} [CommRing F]

/-- `E2.Mul`: the Karatsuba-style product, line for line from e2.go. -/
def E2.Mul (e1 e2 : E2 F) (ext : Extension F) : E2 F :=
  let l1 := e1.A0 + e1.A1
  let l2 := e2.A0 + e2.A1
  let u := l1 * l2
  let ac := e1.A0 * e2.A0
  let bd := e1.A1 * e2.A1
  let l31 := ac + bd
  let l3 := u - l31
  let a1 := l3 * 1
  let buSquare := ext.uSquare
  let l41 := bd * buSquare
  let l4 := ac + l41
  let a0 := l4 * 1
  ⟨a0, a1⟩

/-- `E2.Square`: the complex-squaring formula, line for line from e2.go
(algo 22 of eprint 2010/354). -/
def E2.Square (x : E2 F) (ext : Extension F) : E2 F :=
  let c0 := x.A0 + x.A1
  let buSquare := ext.uSquare
  let c2 := x.A1 * buSquare
  let c2a := c2 + x.A0
  let c0a := c0 * c2a
  let c2b := x.A0 * x.A1
  let c2c := c2b + c2b
  let a1 := c2c
  let c2d := c2c + c2c
  let a0 := c0a + c2d
  ⟨a0, a1⟩

end fields

/-- The BW6-761 scalar field, as a type. -/
abbrev Fq : Type := ZMod mont.q

/-- Certificate that `mont.rInv` really is the inverse of the Montgomery
constant `R` modulo `q`. -/
theorem rInv_mul_R : mont.R * mont.rInv % mont.q = 1 := by decide

/-- C1 counterexample: on the BW6-761 scalar field, `powModulusMinusOne`
applied to `[0]` returns 1 (not 0), and applied to `[1]` returns 0
(not -1). -/
theorem powModulusMinusOne_claim_counterexample :
    cs.powModulusMinusOne (F := Fq) mont.q [0] = .ok 1 ∧ (1 : Fq) ≠ 0
    ∧ cs.powModulusMinusOne (F := Fq) mont.q [1] = .ok 0 ∧ (0 : Fq) ≠ -1 := by
  haveI : Fact (1 < mont.q) := ⟨by norm_num [mont.q]⟩
  have hq : mont.q - 1 ≠ 0 := by norm_num [mont.q]
  refine ⟨?_, one_ne_zero, ?_, ?_⟩
  · simp [cs.powModulusMinusOne, zero_pow hq]
  · simp [cs.powModulusMinusOne]
  · intro h
    have h1 : (1 : Fq) = 0 := by linear_combination h
    exact one_ne_zero h1

/-- C1 (amended): the hint computes `m = 1 - x^(q-1)` where `q` is the
field modulus (the cardinality of the scalar field), which yields 1 when
`x = 0` and 0 when `x` is nonzero. -/
theorem powModulusMinusOne_isZero_indicator (F : Type) [Field F] [Fintype F]
    [DecidableEq F] (x : F) :
    cs.powModulusMinusOne (Fintype.card F) [x] = .ok (if x = 0 then 1 else 0) := by
  have hcard : Fintype.card F - 1 ≠ 0 :=
    Nat.sub_ne_zero_of_lt Fintype.one_lt_card
  by_cases hx : x = 0
  · subst hx
    simp [cs.powModulusMinusOne, zero_pow hcard]
  · simp [cs.powModulusMinusOne, hx, FiniteField.pow_card_sub_one_eq_one x hx]

/-- C1 witness: a concrete nonzero input on a concrete prime field. -/
theorem powModulusMinusOne_isZero_indicator_witness :
    cs.powModulusMinusOne (Fintype.card (ZMod 5)) [(2 : ZMod 5)] = .ok 0 := by
  have hne : (2 : ZMod 5) ≠ 0 := by decide
  haveI : Fact (Nat.Prime 5) := ⟨by norm_num⟩
  have h := powModulusMinusOne_isZero_indicator (ZMod 5) (2 : ZMod 5)
  rw [if_neg hne] at h
  exact h

/-- C5 counterexample: `ithBit` does not leave its input list unchanged;
on the raw input list `[1, 0]` both elements are converted out of
Montgomery form in place. -/
theorem ithBit_mutates_inputs : (mont.ithBit [1, 0]).1 ≠ [1, 0] := by decide

/-- C5 (amended): `powModulusMinusOne` leaves its input list unchanged;
`ithBit` leaves it unchanged when the length check fails, but on a
two-element list it overwrites both elements with their canonical
(non-Montgomery) forms.  Both hints are functions of the input list
alone, so their results depend only on the input values. -/
theorem hint_frame_conditions :
    (∀ inputs : List ℕ, (mont.powModulusMinusOne inputs).1 = inputs)
    ∧ (∀ inputs : List ℕ, inputs.length ≠ 2 → (mont.ithBit inputs).1 = inputs)
    ∧ (∀ a n : ℕ, (mont.ithBit [a, n]).1 = [mont.fromMont a, mont.fromMont n]) := by
  refine ⟨fun inputs => ?_, fun inputs h => ?_, fun a n => ?_⟩
  · unfold mont.powModulusMinusOne
    split <;> rfl
  · unfold mont.ithBit
    rw [if_pos h]
  · unfold mont.ithBit
    rw [if_neg (by simp)]
    dsimp only [List.getD_cons_zero, List.getD_cons_succ]
    split <;> rfl

/-- C5 witness: concrete frame facts for both hints. -/
theorem hint_frame_conditions_witness :
    (mont.powModulusMinusOne [5]).1 = [5] ∧ (mont.ithBit [1, 2, 3]).1 = [1, 2, 3] :=
  ⟨hint_frame_conditions.1 [5], hint_frame_conditions.2.1 [1, 2, 3] (by decide)⟩

/-- C6: `ithBit` errors exactly when the input list does not have two
elements or the canonical bit position does not fit in one 64-bit word;
otherwise on `[a, n]` it returns the element representing bit `n` of the
canonical integer value of `a` — the Montgomery form of 1 or the zero
element, whose field values are 1 and 0. -/
theorem ithBit_spec :
    (∀ inputs : List ℕ,
        (∃ e, (mont.ithBit inputs).2 = .error e) ↔
          (inputs.length ≠ 2 ∨ 2 ^ 64 ≤ mont.fromMont (inputs.getD 1 0)))
    ∧ (∀ a n : ℕ, ¬ 2 ^ 64 ≤ mont.fromMont n →
        (mont.ithBit [a, n]).2 =
          .ok (if (mont.fromMont a).testBit (mont.fromMont n) then mont.oneMont else 0))
    ∧ mont.fromMont mont.oneMont = 1 ∧ mont.fromMont 0 = 0 := by
  refine ⟨fun inputs => ?_, fun a n h => ?_, by decide, by decide⟩
  · unfold mont.ithBit
    by_cases h2 : inputs.length = 2
    · rw [if_neg (by omega)]
      dsimp only
      by_cases hn : 2 ^ 64 ≤ mont.fromMont (inputs.getD 1 0)
      · rw [if_pos hn]
        exact iff_of_true ⟨_, rfl⟩ (Or.inr hn)
      · rw [if_neg hn]
        refine iff_of_false ?_ ?_
        · rintro ⟨e, he⟩
          simp at he
        · rintro (hc | hc)
          · exact hc h2
          · exact hn hc
    · rw [if_pos h2]
      exact iff_of_true ⟨_, rfl⟩ (Or.inl h2)
  · unfold mont.ithBit
    rw [if_neg (by simp)]
    dsimp only [List.getD_cons_zero, List.getD_cons_succ]
    rw [if_neg h]

/-- C6 witness: bit 0 of the field element 1 is 1. -/
theorem ithBit_spec_witness :
    (mont.ithBit [mont.oneMont, 0]).2 = .ok mont.oneMont := by
  have h := ithBit_spec.2.1 mont.oneMont 0 (by decide)
  rw [if_pos (by decide : (mont.fromMont mont.oneMont).testBit (mont.fromMont 0) = true)] at h
  exact h

/-- C8 counterexample: with extension parameter `uSquare = 1` over the
field of 7 elements, `Square ⟨1,1⟩` and `Mul ⟨1,1⟩ ⟨1,1⟩` differ in
their first coordinate. -/
theorem E2_square_ne_mul_counterexample :
    fields.E2.Square (F := ZMod 7) ⟨1, 1⟩ ⟨1⟩ ≠ fields.E2.Mul ⟨1, 1⟩ ⟨1, 1⟩ ⟨1⟩ := by
  decide

/-- C8 (amended): whenever the extension parameter satisfies
`uSquare = -5` (as for the BLS12-377 quadratic extension this package
instantiates), `E2.Square` agrees with `E2.Mul` on identical operands. -/
theorem E2_square_eq_mul_self {F : Type} [CommRing F] (ext : fields.Extension F)
    (x : fields.E2 F) (h : ext.uSquare = -5) :
    fields.E2.Square x ext = fields.E2.Mul x x ext := by
  cases x with
  | mk a0 a1 =>
    simp only [fields.E2.Square, fields.E2.Mul, h, fields.E2.mk.injEq]
    constructor <;> ring

/-- C8 witness: a concrete instance over the field of 11 elements where
`-5 = 6`. -/
theorem E2_square_eq_mul_self_witness :
    fields.E2.Square (F := ZMod 11) ⟨2, 3⟩ ⟨6⟩ = fields.E2.Mul ⟨2, 3⟩ ⟨2, 3⟩ ⟨6⟩ :=
  E2_square_eq_mul_self ⟨6⟩ ⟨2, 3⟩ (by decide)

/-- C2 counterexample: a BLS12-377 proof against a BN254 verifying key
makes `Verify` panic on the failed type assertion — a fatal outcome, not
a recoverable `CurveMismatch` error value — even when the per-curve
verifier would accept everything. -/
theorem verify_mismatch_counterexample :
    groth16.Verify (fun _ _ _ _ => .ok ()) ⟨groth16.BLS12_377⟩ ⟨groth16.BN254, 0⟩ ⟨[], []⟩
      = .panics "interface conversion" := rfl

/-- C2 (amended): mixing curves is rejected fatally, not recoverably —
for every per-curve verifier, a proof of a known curve against a
verifying key of any other curve makes `Verify` panic on the unchecked
type assertion, and likewise `Prove` for a proving key of a different
curve than the R1CS. -/
theorem verify_prove_mismatch_fatal
    (bVerify : ℕ → groth16.Proof → groth16.VerifyingKey → List ℕ → groth16.GoResult Unit)
    (proof : groth16.Proof) (vk : groth16.VerifyingKey) (pub : groth16.Assignment)
    (r1cs : groth16.R1CS) (pk : groth16.ProvingKey) (w : groth16.Assignment)
    (force : List Bool)
    (hp : proof.curve ∈ groth16.knownCurves) (hvk : vk.curve ≠ proof.curve)
    (hr : r1cs.curve ∈ groth16.knownCurves) (hpk : pk.curve ≠ r1cs.curve) :
    groth16.Verify bVerify proof vk pub = .panics "interface conversion"
    ∧ groth16.Prove r1cs pk w force = .panics "interface conversion" := by
  simp only [groth16.knownCurves, groth16.BN254, groth16.BLS12_377, groth16.BLS12_381,
    groth16.BW6_761, List.mem_cons, List.not_mem_nil, or_false] at hp hr
  constructor
  · unfold groth16.Verify
    rcases hp with h | h | h | h <;>
      · rw [h] at hvk
        simp [h, groth16.BN254, groth16.BLS12_377, groth16.BLS12_381, groth16.BW6_761, hvk]
  · unfold groth16.Prove
    rcases hr with h | h | h | h <;>
      · rw [h] at hpk
        simp [h, groth16.BN254, groth16.BLS12_377, groth16.BLS12_381, groth16.BW6_761, hpk]

/-- C2 witness: concrete mismatched pairs for both entry points. -/
theorem verify_prove_mismatch_fatal_witness :
    groth16.Verify (fun _ _ _ _ => .err "stub") ⟨groth16.BW6_761⟩ ⟨groth16.BLS12_381, 3⟩ ⟨[], []⟩
      = .panics "interface conversion"
    ∧ groth16.Prove ⟨groth16.BLS12_381, 0, 0, 1, fun _ => true⟩ ⟨groth16.BN254⟩ ⟨[], []⟩ []
      = .panics "interface conversion" :=
  verify_prove_mismatch_fatal _ _ _ _ _ _ _ _ (by decide) (by decide) (by decide) (by decide)

/-- C3: omitting the variadic `force` argument is the same as passing
`false`; with `force = true` a witness that fails to solve still reaches
the per-curve prover, which produces a proof object, while with
`force = false` a solving failure yields a recoverable error and no
proof. -/
theorem prove_force_semantics (r1cs : groth16.R1CS) (pk : groth16.ProvingKey)
    (w : groth16.Assignment) :
    groth16.Prove r1cs pk w [] = groth16.Prove r1cs pk w [false]
    ∧ (r1cs.curve ∈ groth16.knownCurves → pk.curve = r1cs.curve →
        r1cs.solvedBy (groth16.FromFullAssignment w) = false →
          groth16.Prove r1cs pk w [true] = .ok ⟨r1cs.curve⟩
          ∧ groth16.Prove r1cs pk w [false] = .err "constraint is not satisfied") := by
  refine ⟨rfl, fun hm hpk hsolve => ?_⟩
  simp only [groth16.knownCurves, List.mem_cons, List.not_mem_nil, or_false] at hm
  unfold groth16.Prove groth16.backendProve
  rcases hm with h | h | h | h <;>
    · rw [h] at hpk
      simp [h, groth16.BN254, groth16.BLS12_377, groth16.BLS12_381, groth16.BW6_761,
        hpk, hsolve]

/-- C3 witness: a concrete unsatisfiable system proved under force and
rejected without it. -/
theorem prove_force_semantics_witness :
    groth16.Prove ⟨groth16.BN254, 0, 0, 1, fun _ => false⟩ ⟨groth16.BN254⟩ ⟨[], []⟩ [true]
      = .ok ⟨groth16.BN254⟩
    ∧ groth16.Prove ⟨groth16.BN254, 0, 0, 1, fun _ => false⟩ ⟨groth16.BN254⟩ ⟨[], []⟩ [false]
      = .err "constraint is not satisfied" :=
  (prove_force_semantics ⟨groth16.BN254, 0, 0, 1, fun _ => false⟩ ⟨groth16.BN254⟩ ⟨[], []⟩).2
    (by decide) rfl rfl

/-- C4: each dispatch constructor returns the matching curve's concrete
object for the four known identifiers and fails fatally (panic, no
object) on every other identifier value. -/
theorem new_dispatch_spec (id : ℕ) :
    (id ∈ groth16.knownCurves →
        groth16.NewProvingKey id = .ok ⟨id⟩
      ∧ groth16.NewVerifyingKey id = .ok ⟨id, 0⟩
      ∧ groth16.NewProof id = .ok ⟨id⟩
      ∧ ∃ r, groth16.NewCS id = .ok r ∧ r.curve = id)
    ∧ (id ∉ groth16.knownCurves →
        groth16.NewProvingKey id = .panics "not implemented"
      ∧ groth16.NewVerifyingKey id = .panics "not implemented"
      ∧ groth16.NewProof id = .panics "not implemented"
      ∧ groth16.NewCS id = .panics "not implemented") := by
  constructor
  · intro hm
    simp only [groth16.knownCurves, List.mem_cons, List.not_mem_nil, or_false] at hm
    rcases hm with h | h | h | h <;> subst h <;>
      exact ⟨rfl, rfl, rfl, ⟨_, rfl, rfl⟩⟩
  · intro hm
    simp only [groth16.knownCurves, List.mem_cons, List.not_mem_nil, or_false,
      not_or] at hm
    obtain ⟨h1, h2, h3, h4⟩ := hm
    refine ⟨?_, ?_, ?_, ?_⟩ <;>
      simp [groth16.NewProvingKey, groth16.NewVerifyingKey, groth16.NewProof,
        groth16.NewCS, h1, h2, h3, h4]

/-- C4 witness: a known identifier yields the matching object; an unknown
identifier panics. -/
theorem new_dispatch_spec_witness :
    groth16.NewProvingKey groth16.BLS12_381 = .ok ⟨groth16.BLS12_381⟩
    ∧ groth16.NewProof 7 = .panics "not implemented" :=
  ⟨((new_dispatch_spec groth16.BLS12_381).1 (by decide)).1,
   ((new_dispatch_spec 7).2 (by decide)).2.2.1⟩

/-- On success, `LimitReadFrom` has consumed exactly `expected` elements,
and the stream's declared element count equals `expected`. -/
theorem LimitReadFrom_ok (s : groth16.Stream) (expected : ℕ) (w : List ℕ)
    (h : groth16.LimitReadFrom s expected = .ok w) :
    w.length = expected ∧ s.header = expected := by
  unfold groth16.LimitReadFrom at h
  by_cases h1 : s.header ≠ expected
  · rw [if_pos h1] at h
    simp at h
  · rw [if_neg h1] at h
    by_cases h2 : s.elems.length < expected
    · rw [if_pos h2] at h
      simp at h
    · rw [if_neg h2] at h
      injection h with h3
      subst h3
      refine ⟨?_, not_ne_iff.mp h1⟩
      rw [List.length_take]
      omega

/-- C7: on the success path, `ReadAndProve` reads a full witness of
exactly (public wires + secret wires) elements — the stored public count
minus the one-wire, plus the secret count — and `ReadAndVerify` reads
exactly `vk.SizePublicWitness()` elements. -/
theorem witness_read_sizes :
    (∀ (s : groth16.Stream) (expected : ℕ) (w : List ℕ),
        groth16.LimitReadFrom s expected = .ok w →
          w.length = expected ∧ s.header = expected)
    ∧ (∀ (r1cs : groth16.R1CS) (pk : groth16.ProvingKey) (s : groth16.Stream)
          (force : List Bool) (p : groth16.Proof),
        0 < r1cs.nbPublic →
        groth16.ReadAndProve r1cs pk s force = .ok p →
          ∃ w, groth16.LimitReadFrom s
              (groth16.nbPublicWires r1cs + groth16.nbSecretWires r1cs) = .ok w
            ∧ w.length = groth16.nbPublicWires r1cs + groth16.nbSecretWires r1cs)
    ∧ (∀ (bVerify : ℕ → groth16.Proof → groth16.VerifyingKey → List ℕ → groth16.GoResult Unit)
          (proof : groth16.Proof) (vk : groth16.VerifyingKey) (s : groth16.Stream) (u : Unit),
        groth16.ReadAndVerify bVerify proof vk s = .ok u →
          ∃ w, groth16.LimitReadFrom s vk.sizePublicWitness = .ok w
            ∧ w.length = vk.sizePublicWitness) := by
  refine ⟨LimitReadFrom_ok, fun r1cs pk s force p hpub h => ?_,
    fun bVerify proof vk s u h => ?_⟩
  · have hsz : r1cs.nbSecret + r1cs.nbPublic - 1
        = groth16.nbPublicWires r1cs + groth16.nbSecretWires r1cs := by
      unfold groth16.nbPublicWires groth16.nbSecretWires
      omega
    unfold groth16.ReadAndProve at h
    simp only [groth16.GetNbVariables] at h
    rw [hsz] at h
    split_ifs at h <;>
      first
        | cases h
        | · cases hL : groth16.LimitReadFrom s
              (groth16.nbPublicWires r1cs + groth16.nbSecretWires r1cs) with
            | ok w =>
                exact ⟨w, rfl, (LimitReadFrom_ok _ _ _ hL).1⟩
            | err e => rw [hL] at h; cases h
            | panics m => rw [hL] at h; cases h
  · unfold groth16.ReadAndVerify at h
    split_ifs at h <;>
      first
        | cases h
        | · cases hL : groth16.LimitReadFrom s vk.sizePublicWitness with
            | ok w =>
                exact ⟨w, rfl, (LimitReadFrom_ok _ _ _ hL).1⟩
            | err e => rw [hL] at h; cases h
            | panics m => rw [hL] at h; cases h

/-- C7 witness: a two-element stream for one public and one secret wire. -/
theorem witness_read_sizes_witness :
    ∃ w, groth16.LimitReadFrom ⟨2, [7, 8]⟩
        (groth16.nbPublicWires ⟨groth16.BN254, 0, 1, 2, fun _ => true⟩
          + groth16.nbSecretWires ⟨groth16.BN254, 0, 1, 2, fun _ => true⟩) = .ok w
      ∧ w.length = groth16.nbPublicWires ⟨groth16.BN254, 0, 1, 2, fun _ => true⟩
          + groth16.nbSecretWires ⟨groth16.BN254, 0, 1, 2, fun _ => true⟩ :=
  witness_read_sizes.2.1 ⟨groth16.BN254, 0, 1, 2, fun _ => true⟩ ⟨groth16.BN254⟩
    ⟨2, [7, 8]⟩ [] ⟨groth16.BN254⟩ (by decide) rfl

/-- C9: the mock polynomial-commitment scheme accepts unconditionally:
both verification entry points return true for all arguments of all
types. -/
theorem mock_scheme_always_accepts :
    ∀ (s : mockcommitment.Scheme) (D P V A B C E : Type) (d : D) (p : P) (v : V)
      (point : A) (cv : B) (comm : C) (bp : E),
      s.Verify d p v = true ∧ s.BatchVerifySinglePoint point cv comm bp = true := by
  intros
  exact ⟨rfl, rfl⟩
